import Mathlib

/-!
Verification of the spot-interruption handler (src/main.py).

The embedding models the pure decision logic of the module:
tag resolution (get_current_asg / get_desired_asg), routing-resource
location (find_tg), draining (drain_from_lb), capacity planning
(resize_asg) and the orchestrating handler.  Provider API calls are
modelled by a `World` of point-in-time reads, and the write calls the
run issues are collected as a trace of `RunEvent`s.  Python exceptions
that the module can raise (`IndexError` from `['AutoScalingGroups'][0]`,
`ValueError` from `int()`) are modelled with `Except` / `Option`;
`none` / `Except.error` means the corresponding call raises.
The identity stage (assume_role) is presumed successful: every modelled
run is a run that obtained an identity.
-/

/-- One tag as returned by ec2.describe_tags for the instance. -/
structure Tag where
  key : String
  value : String
deriving DecidableEq

/-- A scaling-group snapshot as returned by describe_auto_scaling_groups
(the fields the module reads). -/
structure ASG where
  AutoScalingGroupName : String
  DesiredCapacity : Int
  MaxSize : Int
deriving DecidableEq

/-- A classic load balancer: its name and registered instance ids. -/
structure ClassicLB where
  name : String
  instances : List String
deriving DecidableEq

/-- The discriminated union returned by find_tg: (lb_type, resource_id)
with lb_type in {None, 'alb', 'elb'}. -/
inductive RoutingResource where
  | none
  | alb (arn : String)
  | elb (lbName : String)
deriving DecidableEq

/-- Provider API calls the run issues, in order: target-health reads,
the classic-balancer account scan, the two deregistration writes and the
capacity update. -/
inductive RunEvent where
  | healthFetch (arn : String)
  | classicScan
  | deregTargets (arn instId : String)
  | deregInstances (lbName instId : String)
  | updateASG (asgName : String) (desired : Int)
deriving DecidableEq

/-- Python exceptions the module itself can raise. -/
inductive PyError where
  | indexError
  | valueError
deriving DecidableEq

/-- Point-in-time view of the provider state read during one run:
the instance's tags, describe_auto_scaling_groups by name, the target
groups attached to a scaling group, the target-health listing of a
target group, and all classic load balancers of the account/region. -/
structure World where
  tags : List Tag
  asgLookup : String → List ASG
  attachedTGs : String → List String
  targetHealth : String → List String
  classicLBs : List ClassicLB

/-! ### Option parsing (resize_asg lines 188-196)

`re.findall(r'[\w:]+\s*=\s*[\w:]+', ';'.join(opts))`, then
`dict([m.split('=', 1) for m in opts])`, then
`int(opts.get('MaxDesired', maxSize))`.  `\w` is modelled as ASCII
alphanumerics plus underscore, `\s` as the six ASCII space characters. -/

def isWordChar (c : Char) : Bool := c.isAlphanum || c = '_' || c = ':'

def isSpaceChar (c : Char) : Bool :=
  c = ' ' || c = '\t' || c = '\n' || c = '\r' || c = '\x0b' || c = '\x0c'

/-- One leftmost greedy match attempt of `[\w:]+\s*=\s*[\w:]+` at the head
of the string: returns the matched text and the remainder after it. -/
def matchOpt (s : List Char) : Option (List Char × List Char) :=
  let a1 := s.takeWhile isWordChar
  let r1 := s.dropWhile isWordChar
  if a1.isEmpty then none
  else
    let sp1 := r1.takeWhile isSpaceChar
    let r2 := r1.dropWhile isSpaceChar
    match r2 with
    | [] => none
    | c :: r3 =>
      if c = '=' then
        let sp2 := r3.takeWhile isSpaceChar
        let r4 := r3.dropWhile isSpaceChar
        let a2 := r4.takeWhile isWordChar
        let r5 := r4.dropWhile isWordChar
        if a2.isEmpty then none
        else some (a1 ++ sp1 ++ c :: (sp2 ++ a2), r5)
      else none

/-- re.findall scan: on a failed attempt advance one character, on a
successful match continue after it.  Fuel is the remaining string length;
every step consumes at least one character, so the initial fuel of
`s.length` is always sufficient. -/
def findallGo : Nat → List Char → List (List Char)
  | 0, _ => []
  | _ + 1, [] => []
  | fuel + 1, c :: rest =>
    match matchOpt (c :: rest) with
    | some (m, r) => m :: findallGo fuel r
    | none => findallGo fuel rest

def findallOpts (s : List Char) : List (List Char) := findallGo s.length s

/-- Python `m.split('=', 1)` on a match (which always contains an '='):
the part before the first '=' and the part after it. -/
def splitEq1 (m : List Char) : List Char × List Char :=
  (m.takeWhile (fun c => c != '='), (m.dropWhile (fun c => c != '=')).drop 1)

/-- Lookup in the dict built from the ordered pair list: `dict(pairs)`
inserts in order, so for a duplicate key the later value overrides. -/
def dictGet (ps : List (List Char × List Char)) (k : List Char) :
    Option (List Char) :=
  ps.foldl (fun acc p => if p.1 = k then some p.2 else acc) none

/-- Python `';'.join`. -/
def joinSemi : List (List Char) → List Char
  | [] => []
  | [x] => x
  | x :: y :: ys => x ++ ';' :: joinSemi (y :: ys)

/-- Python `str.split(';')` (always returns at least one piece). -/
def splitSemi : List Char → List (List Char)
  | [] => [[]]
  | c :: rest =>
    if c = ';' then [] :: splitSemi rest
    else
      match splitSemi rest with
      | [] => [[c]]
      | p :: ps => (c :: p) :: ps

def isDigitOrUnd (c : Char) : Bool := c.isDigit || c = '_'

def noDoubleUnd : List Char → Bool
  | '_' :: '_' :: _ => false
  | _ :: rest => noDoubleUnd rest
  | [] => true

def digitsVal (ds : List Char) : Nat :=
  ds.foldl (fun n c => 10 * n + (c.toNat - 48)) 0

/-- Python `int(s)` on a string drawn from `[\w:]+`: digit groups
separated by single underscores parse (PEP 515), everything else raises
ValueError (modelled as `none`). -/
def pyIntParse (s : List Char) : Option Int :=
  match s with
  | [] => none
  | c :: _ =>
    if c.isDigit && (s.getLastD '0').isDigit && s.all isDigitOrUnd
        && noDoubleUnd s then
      some ((digitsVal (s.filter Char.isDigit) : Nat) : Int)
    else none

/-! ### The source functions -/

/-- The option dict of resize_asg built from the directive's option
strings (the pieces after the group name in the split of the tag). -/
def resizeOpts (optsTail : List (List Char)) : List (List Char × List Char) :=
  (findallOpts (joinSemi optsTail)).map splitEq1

def maxDesiredKey : List Char := "MaxDesired".data

/-- `int(opts.get('MaxDesired', self.target_asg['MaxSize']))`:
`none` models the ValueError raised when MaxDesired is present but its
value does not parse as an integer. -/
def resizeMaxSize (optsTail : List (List Char)) (asg : ASG) : Option Int :=
  match dictGet (resizeOpts optsTail) maxDesiredKey with
  | some v => pyIntParse v
  | none => some asg.MaxSize

/-- resize_asg (lines 186-216): returns the Python return value and the
update_auto_scaling_group calls it issues; `none` models the ValueError
from `int()`. -/
def resize_asg (optsTail : List (List Char)) (asg : ASG) (count : Int) :
    Option (Bool × List RunEvent) :=
  match resizeMaxSize optsTail asg with
  | none => none
  | some maxSize =>
    if asg.DesiredCapacity ≥ maxSize then some (false, [])
    else
      some (true,
        [RunEvent.updateASG asg.AutoScalingGroupName
          (asg.DesiredCapacity + count)])

/-- `next((tag['Value'] for tag in tags if tag['Key'] == k), None)`. -/
def findTagValue (tags : List Tag) (k : String) : Option String :=
  (tags.find? (fun t => t.key = k)).map Tag.value

/-- get_current_asg (lines 94-111): (instance_name, current_asg). -/
def get_current_asg (tags : List Tag) : Option String × Option String :=
  (findTagValue tags "Name", findTagValue tags "aws:autoscaling:groupName")

/-- The group name of the directive: `target_asg_name, *opts = v.split(';')`. -/
def targetNameOf (v : String) : String :=
  String.mk ((splitSemi v.data).headD [])

/-- The option strings of the directive (the split's remaining pieces). -/
def targetOptsOf (v : String) : List (List Char) :=
  (splitSemi v.data).tail

/-- get_desired_asg (lines 113-128): absent tag yields (None, None, None);
a present tag naming a group whose describe returns an empty list raises
IndexError at `['AutoScalingGroups'][0]`. -/
def get_desired_asg (tags : List Tag) (lookup : String → List ASG) :
    Except PyError (Option (String × List (List Char) × ASG)) :=
  match findTagValue tags "asgOnDemand" with
  | none => Except.ok none
  | some v =>
    match lookup (targetNameOf v) with
    | [] => Except.error PyError.indexError
    | a :: _ => Except.ok (some (targetNameOf v, targetOptsOf v, a))

/-- The ALB loop of find_tg (lines 148-157): for each attached target
group in order, fetch its target health and scan for the instance id;
stop at the first group containing it. -/
def scanTGs (w : World) (instId : String) :
    List String → Option String × List RunEvent
  | [] => (none, [])
  | arn :: rest =>
    if instId ∈ w.targetHealth arn then
      (some arn, [RunEvent.healthFetch arn])
    else
      ((scanTGs w instId rest).1,
        RunEvent.healthFetch arn :: (scanTGs w instId rest).2)

/-- The classic-balancer loop of find_tg (lines 141-145): first balancer
whose registered instances contain the id. -/
def scanClassic (lbs : List ClassicLB) (instId : String) : Option String :=
  match lbs with
  | [] => none
  | lb :: rest =>
    if instId ∈ lb.instances then some lb.name else scanClassic rest instId

/-- find_tg (lines 130-160), with its trace of provider reads. -/
def find_tg (w : World) (current_asg : Option String) (instId : String) :
    RoutingResource × List RunEvent :=
  match current_asg with
  | none => (RoutingResource.none, [])
  | some g =>
    if (w.attachedTGs g).length = 0 then
      (match scanClassic w.classicLBs instId with
        | some nm => RoutingResource.elb nm
        | none => RoutingResource.none,
       [RunEvent.classicScan])
    else
      (match (scanTGs w instId (w.attachedTGs g)).1 with
        | some arn => RoutingResource.alb arn
        | none => RoutingResource.none,
       (scanTGs w instId (w.attachedTGs g)).2)

/-- drain_from_lb (lines 162-184): the deregistration calls issued. -/
def drain_from_lb (r : RoutingResource) (instId : String) : List RunEvent :=
  match r with
  | RoutingResource.alb arn => [RunEvent.deregTargets arn instId]
  | RoutingResource.elb nm => [RunEvent.deregInstances nm instId]
  | RoutingResource.none => []

/-- The fields of the Spot object the handler reads after construction. -/
structure SpotState where
  instance_name : Option String
  current_asg : Option String
  target : Option (String × List (List Char) × ASG)
  rr : RoutingResource
deriving DecidableEq

/-- Spot.__init__ (lines 36-42) after the role is assumed: resolve tags,
resolve the replacement group (this is where the IndexError of
get_desired_asg escapes, before find_tg runs), then locate the routing
resource.  Returns the constructed state and the reads issued. -/
def spotInit (w : World) (instId : String) :
    Except PyError (SpotState × List RunEvent) :=
  match get_desired_asg w.tags w.asgLookup with
  | Except.error e => Except.error e
  | Except.ok target =>
    Except.ok
      (⟨(get_current_asg w.tags).1, (get_current_asg w.tags).2, target,
        (find_tg w (get_current_asg w.tags).2 instId).1⟩,
       (find_tg w (get_current_asg w.tags).2 instId).2)

/-- The capacity branch of the handler (lines 236-243): skipped when the
directive tag was absent, otherwise resize_asg with count 1; its
ValueError propagates out of the handler. -/
def capacityStage :
    Option (String × List (List Char) × ASG) → List RunEvent × Option PyError
  | none => ([], none)
  | some (_, opts, asg) =>
    match resize_asg opts asg 1 with
    | none => ([], some PyError.valueError)
    | some (_, upds) => (upds, none)

/-- handler (lines 219-243): construct the Spot object, drain, then the
capacity branch.  Returns the ordered event trace and the uncaught
exception, if any. -/
def handler (w : World) (instId : String) : List RunEvent × Option PyError :=
  match spotInit w instId with
  | Except.error e => ([], some e)
  | Except.ok (st, evs0) =>
    (evs0 ++ drain_from_lb st.rr instId ++ (capacityStage st.target).1,
     (capacityStage st.target).2)

/-- A metric emission: the arguments of cw.put_metric_data. -/
structure MetricEmission where
  namespace_val : String
  metricName : String
  dimensionName : String
  dimensionValue : Option String
  accountId : String
  statusReason : String
deriving DecidableEq

/-- metric (lines 44-74).  The source wraps the cw.put_metric_data call
in no try/except, so when the sink call raises (cwRaises) the exception
escapes metric itself; `Except.error` models that propagation. -/
def metric (metrics_ns : Option String) (current_asg : Option String)
    (instance_name : Option String) (account_id : String)
    (cwRaises : Bool) (name reason : String) :
    Except Unit (Option MetricEmission) :=
  match metrics_ns with
  | none => Except.ok none
  | some ns =>
    let dims : String × Option String :=
      match current_asg with
      | none => ("InstanceName", instance_name)
      | some g => ("AutoScaleGroup", some g)
    if cwRaises then Except.error ()
    else Except.ok (some ⟨ns, name, dims.1, dims.2, account_id, reason⟩)

/-! ### Concrete worlds used as witnesses and counterexamples -/

/-- Run where the directive names a group whose describe returns no
groups, while a target group does route the instance. -/
def worldGhostDirective : World :=
  ⟨[⟨"aws:autoscaling:groupName", "asg-a"⟩, ⟨"asgOnDemand", "ghost"⟩],
   fun _ => [],
   fun n => if n = "asg-a" then ["tg-1"] else [],
   fun a => if a = "tg-1" then ["i-1"] else [],
   []⟩

/-- The end-to-end scenario of the spec: i-1 in asg-a behind tg-1,
directive "asg-b;MaxDesired=10", asg-b at 2 of 10. -/
def worldEndToEnd : World :=
  ⟨[⟨"aws:autoscaling:groupName", "asg-a"⟩, ⟨"asgOnDemand", "asg-b;MaxDesired=10"⟩],
   fun n => if n = "asg-b" then [⟨"asg-b", 2, 10⟩] else [],
   fun n => if n = "asg-a" then ["tg-1"] else [],
   fun a => if a = "tg-1" then ["i-1"] else [],
   []⟩

/-- One attached target group that does not list the instance, while a
classic balancer does: the fallback scan must still not run. -/
def worldAttachedMiss : World :=
  ⟨[], fun _ => [],
   fun _ => ["tg-1"],
   fun _ => ["i-other"],
   [⟨"lb-1", ["i-9"]⟩]⟩

/-- Three attached target groups; the instance appears in the second and
the third: the scan must stop at the second. -/
def worldThreeGroups : World :=
  ⟨[], fun _ => [],
   fun _ => ["tg-1", "tg-2", "tg-3"],
   fun a => if a = "tg-2" then ["i-1"] else if a = "tg-3" then ["i-1"] else [],
   []⟩

/-- Directive present, replacement group exists, but the instance is
registered nowhere: drain is a no-op and the capacity stage still runs. -/
def worldNoResource : World :=
  ⟨[⟨"aws:autoscaling:groupName", "asg-a"⟩, ⟨"asgOnDemand", "asg-b"⟩],
   fun n => if n = "asg-b" then [⟨"asg-b", 2, 10⟩] else [],
   fun n => if n = "asg-a" then ["tg-1"] else [],
   fun _ => [],
   []⟩

/-- The Spot state the run over worldNoResource constructs. -/
def stateNoResource : SpotState :=
  ⟨none, some "asg-a", some ("asg-b", [], ⟨"asg-b", 2, 10⟩), RoutingResource.none⟩

/-- Directive "ghost" with an empty account: the group lookup is empty. -/
def worldOnlyGhostTag : World :=
  ⟨[⟨"asgOnDemand", "ghost"⟩], fun _ => [], fun _ => [], fun _ => [], []⟩

/-! ### Helper lemmas -/

/-- Folding the dict-insert step over pairs none of which carry key k
leaves the accumulator unchanged. -/
theorem foldl_dict_skip (k : List Char) :
    ∀ (qs : List (List Char × List Char)) (acc : Option (List Char)),
      (∀ p ∈ qs, p.1 ≠ k) →
      qs.foldl (fun acc p => if p.1 = k then some p.2 else acc) acc = acc := by
  intro qs
  induction qs with
  | nil => intro acc _; rfl
  | cons p rest ih =>
    intro acc h
    rw [List.foldl_cons, if_neg (h p (List.mem_cons_self p rest))]
    exact ih acc (fun q hq => h q (List.mem_cons_of_mem p hq))

/-- If no attached target group lists the instance, the ALB loop misses
and fetches the health of every attached group, in order. -/
theorem scanTGs_all_miss (w : World) (instId : String) :
    ∀ l : List String, (∀ a ∈ l, instId ∉ w.targetHealth a) →
      scanTGs w instId l = (none, l.map RunEvent.healthFetch) := by
  intro l
  induction l with
  | nil => intro _; rfl
  | cons arn rest ih =>
    intro h
    have hhead : instId ∉ w.targetHealth arn := h arn (List.mem_cons_self arn rest)
    have htail := ih (fun a ha => h a (List.mem_cons_of_mem arn ha))
    simp [scanTGs, hhead, htail]

/-- The ALB loop only issues target-health reads, never the classic scan. -/
theorem scanTGs_no_classic (w : World) (instId : String) :
    ∀ l : List String, RunEvent.classicScan ∉ (scanTGs w instId l).2 := by
  intro l
  induction l with
  | nil => simp [scanTGs]
  | cons arn rest ih =>
    by_cases hmem : instId ∈ w.targetHealth arn
    · simp [scanTGs, hmem]
    · simp [scanTGs, hmem, ih]

/-- The ALB loop stops at the first attached group listing the instance:
it returns that group and has fetched exactly the groups up to it. -/
theorem scanTGs_first_match (w : World) (instId : String) :
    ∀ (l : List String) (k : Nat) (arn : String),
      l[k]? = some arn → instId ∈ w.targetHealth arn →
      (∀ a ∈ l.take k, instId ∉ w.targetHealth a) →
      scanTGs w instId l = (some arn, (l.take (k + 1)).map RunEvent.healthFetch) := by
  intro l
  induction l with
  | nil => intro k arn hk; simp at hk
  | cons x rest ih =>
    intro k arn hk hmem hbefore
    match k with
    | 0 =>
      simp at hk
      subst hk
      simp [scanTGs, hmem]
    | Nat.succ k =>
      have hx : instId ∉ w.targetHealth x := by
        refine hbefore x ?_
        rw [List.take_succ_cons]
        exact List.mem_cons_self x (rest.take k)
      have hk2 : rest[k]? = some arn := by simpa using hk
      have hb2 : ∀ a ∈ rest.take k, instId ∉ w.targetHealth a := by
        intro a ha
        refine hbefore a ?_
        rw [List.take_succ_cons]
        exact List.mem_cons_of_mem x ha
      have hrec := ih k arn hk2 hmem hb2
      simp [scanTGs, hx, hrec]

/-- When the directive tag is absent, get_desired_asg yields no target. -/
theorem get_desired_asg_no_tag {tags : List Tag} {lookup : String → List ASG}
    (h : findTagValue tags "asgOnDemand" = none) :
    get_desired_asg tags lookup = Except.ok none := by
  simp [get_desired_asg, h]

/-- When the directive tag is present but the group describe returns an
empty list, get_desired_asg raises IndexError. -/
theorem get_desired_asg_empty {tags : List Tag} {lookup : String → List ASG}
    {v : String} (h : findTagValue tags "asgOnDemand" = some v)
    (h2 : lookup (targetNameOf v) = []) :
    get_desired_asg tags lookup = Except.error PyError.indexError := by
  simp [get_desired_asg, h, h2]

/-- When the directive tag is present and the group describe is
non-empty, get_desired_asg yields the name, options and first group. -/
theorem get_desired_asg_found {tags : List Tag} {lookup : String → List ASG}
    {v : String} {a : ASG} {rest : List ASG}
    (h : findTagValue tags "asgOnDemand" = some v)
    (h2 : lookup (targetNameOf v) = a :: rest) :
    get_desired_asg tags lookup =
      Except.ok (some (targetNameOf v, targetOptsOf v, a)) := by
  simp [get_desired_asg, h, h2]

/-! ### The claims -/

/-- C1: for every replacement directive and scaling-group snapshot, if
the snapshot's desired capacity is at or above the ceiling (the
MaxDesired option when present and integer-valued, else the group's own
maximum), resize_asg returns False and issues no update call: a group
sitting exactly at the ceiling is treated as full (the comparison is >=,
not >). -/
theorem resize_asg_at_ceiling_no_update (dir : String) (asg : ASG) (m : Int)
    (hceil : resizeMaxSize (splitSemi dir.data).tail asg = some m)
    (hfull : asg.DesiredCapacity ≥ m) :
    resize_asg (splitSemi dir.data).tail asg 1 = some (false, []) := by
  simp [resize_asg, hceil, hfull]

/-- C1 witness: directive "grpA;MaxDesired=5" with desiredCapacity 5. -/
theorem resize_asg_at_ceiling_no_update_witness :
    resize_asg (splitSemi ("grpA;MaxDesired=5" : String).data).tail
      ⟨"grpA", 5, 10⟩ 1 = some (false, []) :=
  resize_asg_at_ceiling_no_update "grpA;MaxDesired=5" ⟨"grpA", 5, 10⟩ 5
    (by decide) (by decide)

/-- C2: for every replacement directive and snapshot with desired
capacity strictly below the ceiling, resize_asg returns True and issues
exactly one update call, setting desired capacity to exactly the
snapshot's desired capacity plus one. -/
theorem resize_asg_below_ceiling_one_update (dir : String) (asg : ASG) (m : Int)
    (hceil : resizeMaxSize (splitSemi dir.data).tail asg = some m)
    (hroom : asg.DesiredCapacity < m) :
    resize_asg (splitSemi dir.data).tail asg 1 =
      some (true,
        [RunEvent.updateASG asg.AutoScalingGroupName (asg.DesiredCapacity + 1)]) := by
  have hn : ¬ asg.DesiredCapacity ≥ m := not_le.mpr hroom
  simp [resize_asg, hceil, hn]

/-- C2 witness: directive "grpA;MaxDesired=5" with desiredCapacity 4
issues exactly one update, to 5. -/
theorem resize_asg_below_ceiling_one_update_witness :
    resize_asg (splitSemi ("grpA;MaxDesired=5" : String).data).tail
      ⟨"grpA", 4, 10⟩ 1 = some (true, [RunEvent.updateASG "grpA" 5]) := by
  have h := resize_asg_below_ceiling_one_update "grpA;MaxDesired=5"
    ⟨"grpA", 4, 10⟩ 5 (by decide) (by decide)
  exact h.trans (by decide)

/-- C4 counterexample: for the directive options ["MaxDesired=abc"] the
MaxDesired value does not parse as an integer, and resize_asg raises
ValueError (modelled as `none`) instead of falling back to the group's
own maximum: under the claim it would have had to return applied=true
with an update to 1 (ceiling 3, desired 0). -/
theorem resize_asg_nonint_maxdesired_counterexample :
    resize_asg [("MaxDesired=abc" : String).data] ⟨"grpA", 0, 3⟩ 1 = none := by
  decide

/-- C4 amended: when MaxDesired is present among the parsed options but
its value does not parse as an integer, resize_asg raises ValueError
(returns `none`); the silent fallback to the group's own maximum happens
only when MaxDesired is absent. -/
theorem resize_asg_nonint_maxdesired_raises (optsTail : List (List Char))
    (asg : ASG) (count : Int) (v : List Char)
    (hv : dictGet (resizeOpts optsTail) maxDesiredKey = some v)
    (hbad : pyIntParse v = none) :
    resize_asg optsTail asg count = none := by
  simp [resize_asg, resizeMaxSize, hv, hbad]

/-- C4 amended witness. -/
theorem resize_asg_nonint_maxdesired_raises_witness :
    resize_asg [("MaxDesired=abc" : String).data] ⟨"grpB", 1, 5⟩ 2 = none :=
  resize_asg_nonint_maxdesired_raises [("MaxDesired=abc" : String).data]
    ⟨"grpB", 1, 5⟩ 2 ("abc" : String).data (by decide) (by decide)

/-- C7: the metric sink call is issued with no exception handling in
metric (source lines 44-74 contain no try/except), so when the delivery
call raises, the exception escapes the metric operation instead of being
swallowed: with a namespace configured and a failing sink, metric
propagates the failure. -/
theorem metric_failure_propagates :
    metric (some "spot-metrics") (some "asg-a") none "123456789012" true
      "termination" "termination" = Except.error () := rfl

/-- C9: in the option dict resize_asg builds, a duplicate key takes the
value of its last occurrence in the parsed ordered option sequence:
whenever the parsed sequence splits as ps ++ (k, v) :: qs with no later
occurrence of k in qs, lookup of k yields v. -/
theorem resize_opts_later_value_wins (optsTail : List (List Char))
    (ps qs : List (List Char × List Char)) (k v : List Char)
    (hsplit : resizeOpts optsTail = ps ++ (k, v) :: qs)
    (hlast : ∀ p ∈ qs, p.1 ≠ k) :
    dictGet (resizeOpts optsTail) k = some v := by
  rw [hsplit]
  unfold dictGet
  rw [List.foldl_append, List.foldl_cons]
  have hstep :
      (if (k, v).1 = k then some (k, v).2
        else List.foldl (fun acc p => if p.1 = k then some p.2 else acc) none ps)
        = some v := if_pos rfl
  rw [hstep]
  exact foldl_dict_skip k qs (some v) hlast

/-- C9 witness: with MaxDesired given twice, lookup returns the later
value. -/
theorem resize_opts_later_value_wins_witness :
    dictGet
      (resizeOpts [("MaxDesired=3" : String).data, ("MaxDesired=7" : String).data])
      ("MaxDesired" : String).data = some ("7" : String).data :=
  resize_opts_later_value_wins
    [("MaxDesired=3" : String).data, ("MaxDesired=7" : String).data]
    [(("MaxDesired" : String).data, ("3" : String).data)] []
    ("MaxDesired" : String).data ("7" : String).data (by decide) (by decide)

/-- C5: when the current group has one or more attached target groups
and the instance is in none of their target-health lists, find_tg
returns the none variant having fetched every attached group's health,
and never issues the classic-balancer account scan; that scan runs only
when the attached target-group count is zero. -/
theorem find_tg_attached_no_match_no_classic (w : World) (g instId : String)
    (hne : w.attachedTGs g ≠ [])
    (hmiss : ∀ arn ∈ w.attachedTGs g, instId ∉ w.targetHealth arn) :
    (find_tg w (some g) instId).1 = RoutingResource.none ∧
    (find_tg w (some g) instId).2 = (w.attachedTGs g).map RunEvent.healthFetch ∧
    RunEvent.classicScan ∉ (find_tg w (some g) instId).2 ∧
    (∀ g2, RunEvent.classicScan ∈ (find_tg w (some g2) instId).2 →
      w.attachedTGs g2 = []) := by
  have hlen : ¬ (w.attachedTGs g).length = 0 :=
    fun h0 => hne (List.length_eq_zero.mp h0)
  have hscan := scanTGs_all_miss w instId (w.attachedTGs g) hmiss
  have hft : find_tg w (some g) instId =
      (RoutingResource.none, (w.attachedTGs g).map RunEvent.healthFetch) := by
    simp [find_tg, hlen, hscan]
  refine ⟨by rw [hft], by rw [hft], ?_, ?_⟩
  · rw [hft]
    simp
  · intro g2 hmem
    by_cases h0 : (w.attachedTGs g2).length = 0
    · exact List.length_eq_zero.mp h0
    · exfalso
      have h2 : (find_tg w (some g2) instId).2 =
          (scanTGs w instId (w.attachedTGs g2)).2 := by
        simp [find_tg, h0]
      rw [h2] at hmem
      exact scanTGs_no_classic w instId _ hmem

/-- C5 witness: one attached group without the instance; even though a
classic balancer lists the instance, locate reports none. -/
theorem find_tg_attached_no_match_no_classic_witness :
    (find_tg worldAttachedMiss (some "asg-a") "i-9").1 = RoutingResource.none :=
  (find_tg_attached_no_match_no_classic worldAttachedMiss "asg-a" "i-9"
    (by decide) (by decide)).1

/-- C6: when the instance is listed by the attached target group at
position k (and by none of the earlier ones), find_tg returns that
group's identifier and has fetched the target health of exactly the
groups at positions 0..k, in enumeration order: first match wins and no
later group is queried. -/
theorem find_tg_first_match_stops (w : World) (g instId : String) (k : Nat)
    (arn : String)
    (hk : (w.attachedTGs g)[k]? = some arn)
    (hmem : instId ∈ w.targetHealth arn)
    (hbefore : ∀ a ∈ (w.attachedTGs g).take k, instId ∉ w.targetHealth a) :
    find_tg w (some g) instId =
      (RoutingResource.alb arn,
       ((w.attachedTGs g).take (k + 1)).map RunEvent.healthFetch) := by
  have hlt : k < (w.attachedTGs g).length := by
    by_contra hge
    rw [List.getElem?_eq_none (Nat.le_of_not_lt hge)] at hk
    cases hk
  have hlen : ¬ (w.attachedTGs g).length = 0 := by omega
  have hscan := scanTGs_first_match w instId (w.attachedTGs g) k arn hk hmem hbefore
  simp [find_tg, hlen, hscan]

/-- C6 witness: three attached groups, match at position 1: tg-3 is
never queried. -/
theorem find_tg_first_match_stops_witness :
    find_tg worldThreeGroups (some "asg-a") "i-1" =
      (RoutingResource.alb "tg-2",
       [RunEvent.healthFetch "tg-1", RunEvent.healthFetch "tg-2"]) := by
  have h := find_tg_first_match_stops worldThreeGroups "asg-a" "i-1" 1 "tg-2"
    (by decide) (by decide) (by decide)
  exact h.trans (by decide)

/-- C3 counterexample: in worldGhostDirective a target group routes the
instance (so the drain stage has work to do), but the replacement
directive names a group whose lookup is empty: the run aborts with
IndexError before the drain is attempted: the handler issues no call at
all, so the failure of the resize stage's lookup does suppress the drain
stage, contradicting the claimed independence. -/
theorem handler_group_not_found_suppresses_drain :
    (find_tg worldGhostDirective (some "asg-a") "i-1").1 =
      RoutingResource.alb "tg-1" ∧
    handler worldGhostDirective "i-1" = ([], some PyError.indexError) := by
  decide

/-- C3 amended: drain and resize are independent when the run survives
initialization: an absent directive never suppresses the drain, and a
present directive with a non-empty group lookup reaches the capacity
stage whatever the drain stage found (including no routing resource);
but when the directive names a group whose lookup returns no groups, the
run aborts during initialization with IndexError and the drain stage is
suppressed. -/
theorem handler_branch_independence (w : World) (instId : String) :
    (findTagValue w.tags "asgOnDemand" = none →
      handler w instId =
        ((find_tg w (get_current_asg w.tags).2 instId).2 ++
          drain_from_lb (find_tg w (get_current_asg w.tags).2 instId).1 instId,
         none)) ∧
    (∀ v : String, findTagValue w.tags "asgOnDemand" = some v →
      w.asgLookup (targetNameOf v) = [] →
      handler w instId = ([], some PyError.indexError)) ∧
    (∀ (v : String) (a : ASG) (rest : List ASG),
      findTagValue w.tags "asgOnDemand" = some v →
      w.asgLookup (targetNameOf v) = a :: rest →
      handler w instId =
        ((find_tg w (get_current_asg w.tags).2 instId).2 ++
          drain_from_lb (find_tg w (get_current_asg w.tags).2 instId).1 instId ++
          (capacityStage (some (targetNameOf v, targetOptsOf v, a))).1,
         (capacityStage (some (targetNameOf v, targetOptsOf v, a))).2)) := by
  refine ⟨?_, ?_, ?_⟩
  · intro h
    simp [handler, spotInit, get_desired_asg_no_tag h, capacityStage]
  · intro v hv hempty
    simp [handler, spotInit, get_desired_asg_empty hv hempty]
  · intro v a rest hv hcons
    simp [handler, spotInit, get_desired_asg_found hv hcons]

/-- C3 amended witness: the end-to-end run drains tg-1 and resizes
asg-b to 3. -/
theorem handler_branch_independence_witness :
    handler worldEndToEnd "i-1" =
      ([RunEvent.healthFetch "tg-1", RunEvent.deregTargets "tg-1" "i-1",
        RunEvent.updateASG "asg-b" 3], none) := by
  have h := (handler_branch_independence worldEndToEnd "i-1").2.2
    "asg-b;MaxDesired=10" ⟨"asg-b", 2, 10⟩ [] (by decide) (by decide)
  exact h.trans (by decide)

/-- C8: drain_from_lb issues no deregistration call on the none variant,
exactly one deregister-targets call for a target group, exactly one
deregister-instances call for a classic balancer; and when the located
resource is none the handler still proceeds to the capacity stage. -/
theorem drain_from_lb_calls :
    (∀ instId, drain_from_lb RoutingResource.none instId = []) ∧
    (∀ arn instId, drain_from_lb (RoutingResource.alb arn) instId =
      [RunEvent.deregTargets arn instId]) ∧
    (∀ nm instId, drain_from_lb (RoutingResource.elb nm) instId =
      [RunEvent.deregInstances nm instId]) ∧
    (∀ (w : World) (instId : String) (st : SpotState) (evs0 : List RunEvent),
      spotInit w instId = Except.ok (st, evs0) →
      st.rr = RoutingResource.none →
      handler w instId =
        (evs0 ++ (capacityStage st.target).1, (capacityStage st.target).2)) := by
  refine ⟨fun _ => rfl, fun _ _ => rfl, fun _ _ => rfl, ?_⟩
  intro w instId st evs0 hinit hrr
  simp [handler, hinit, hrr, drain_from_lb]

/-- C8 witness: no routing resource located, yet the capacity stage runs
and resizes asg-b to 3. -/
theorem drain_from_lb_calls_witness :
    handler worldNoResource "i-1" =
      ([RunEvent.healthFetch "tg-1", RunEvent.updateASG "asg-b" 3], none) := by
  have h := drain_from_lb_calls.2.2.2 worldNoResource "i-1" stateNoResource
    [RunEvent.healthFetch "tg-1"] (by rfl) rfl
  exact h.trans (by decide)

/-- C10: when the replacement-directive tag is present but the scaling
group lookup for the named group returns an empty list, the Spot
constructor raises an uncaught IndexError: the run aborts during
initialization, before any locate, drain or resize call is issued (the
handler's trace is empty and the error propagates). -/
theorem spot_init_empty_lookup_aborts (w : World) (instId v : String)
    (htag : findTagValue w.tags "asgOnDemand" = some v)
    (hempty : w.asgLookup (targetNameOf v) = []) :
    spotInit w instId = Except.error PyError.indexError ∧
    handler w instId = ([], some PyError.indexError) := by
  have hd := get_desired_asg_empty htag hempty
  constructor
  · simp [spotInit, hd]
  · simp [handler, spotInit, hd]

/-- C10 witness. -/
theorem spot_init_empty_lookup_aborts_witness :
    handler worldOnlyGhostTag "i-1" = ([], some PyError.indexError) :=
  (spot_init_empty_lookup_aborts worldOnlyGhostTag "i-1" "ghost"
    (by decide) (by decide)).2
